import Mathlib

/-!
Verification development for the mycontainer HTTP server (main.go).

The Go program is a small HTTP server with two JSON endpoints (`/api/ip`,
`/api/config`), a health endpoint, and a static file server wrapped in a
logging middleware.  This file gives a shallow embedding of the pure
request-to-response core of that program: the address-resolution helpers
`getServerIP` / `getClientIP`, the handlers `handleIP`, `handleConfig`,
`handleConfigWithConfig`, the `logRequest` middleware, the configuration
loader `loadConfig`, and the route table installed by `main`.  Machine
bytes are modelled as `Nat`, Go strings as Lean `String`, the process
environment and request headers as functions `String → String` (Go's
`os.Getenv` and `http.Header.Get` both return the empty string for an
absent key, so the function view is observationally faithful).
-/

namespace MyContainer

/-- Character test matching Go `unicode.IsSpace` (the set of Unicode
White_Space code points), used by `strings.TrimSpace`. -/
def goIsSpace (c : Char) : Bool :=
  c.toNat = 9 || c.toNat = 10 || c.toNat = 11 || c.toNat = 12 ||
  c.toNat = 13 || c.toNat = 32 || c.toNat = 0x85 || c.toNat = 0xA0 ||
  c.toNat = 0x1680 || (0x2000 ≤ c.toNat && c.toNat ≤ 0x200A) ||
  c.toNat = 0x2028 || c.toNat = 0x2029 || c.toNat = 0x202F ||
  c.toNat = 0x205F || c.toNat = 0x3000

/-- Go `strings.TrimSpace`: drop leading and trailing white space. -/
def trimSpace (s : String) : String :=
  String.mk (((s.data.dropWhile goIsSpace).reverse.dropWhile goIsSpace).reverse)

/-- Go `strings.Split(s, ",")` on the character list: split at every comma;
the result is always non-empty (splitting the empty string yields `[[]]`). -/
def splitComma : List Char → List (List Char)
  | [] => [[]]
  | c :: rest =>
    match splitComma rest with
    | [] => [[]]
    | s :: ss => if c = ',' then [] :: s :: ss else (c :: s) :: ss

/-- Index of the first occurrence of `c` in `l` (Go `bytealg.IndexByteString`). -/
def firstIdx (l : List Char) (c : Char) : Option Nat :=
  l.findIdx? (fun x => x = c)

/-- Index of the last occurrence of `c` in `l` (Go `bytealg.LastIndexByteString`). -/
def lastIdx (l : List Char) (c : Char) : Option Nat :=
  match (l.reverse.findIdx? (fun x => x = c)) with
  | some i => some (l.length - 1 - i)
  | none => none

/-- Whether `c` occurs in `l` (Go `IndexByteString(...) >= 0`). -/
def containsChar (l : List Char) (c : Char) : Bool :=
  l.any (fun x => x = c)

/-- Go `net.SplitHostPort`.  Returns `some (host, port)` on success and
`none` where the Go function returns a non-nil error (missing port, missing
or misplaced brackets, too many colons).  The port starts after the last
colon; a leading `[` introduces a bracketed (IPv6) host that must end with
`]` immediately before that colon.  The final stray-bracket checks scan
from position `j` (resp. `k`) to the END of the string, port included: an
unexpected `[` anywhere after `j` or `]` anywhere after `k` is an error. -/
def splitHostPort (hostPort : String) : Option (String × String) :=
  let hp := hostPort.data
  match lastIdx hp ':' with
  | none => none
  | some i =>
    if hp.headD ' ' = '[' then
      match firstIdx hp ']' with
      | none => none
      | some e =>
        if e + 1 = hp.length then none
        else if e + 1 = i then
          if containsChar (hp.drop 1) '[' then none
          else if containsChar (hp.drop (e + 1)) ']' then none
          else some (String.mk ((hp.drop 1).take (e - 1)), String.mk (hp.drop (i + 1)))
        else none
    else
      let host := hp.take i
      if containsChar host ':' then none
      else if containsChar hp '[' then none
      else if containsChar hp ']' then none
      else some (String.mk host, String.mk (hp.drop (i + 1)))

/-- An HTTP request as the handlers observe it: method, URL path, the
transport-level remote address, and header lookup with `http.Header.Get`
semantics (empty string for an absent header). -/
structure Request where
  method : String
  path : String
  remoteAddr : String
  headers : String → String

/-- Go `getClientIP`: X-Forwarded-For first element (trimmed) if that header
is non-empty, else X-Real-IP verbatim if non-empty, else the host part of
`RemoteAddr`, falling back to the raw `RemoteAddr` when `SplitHostPort`
fails. -/
def getClientIP (r : Request) : String :=
  let forwarded := r.headers "X-Forwarded-For"
  if forwarded ≠ "" then
    trimSpace (String.mk ((splitComma forwarded.data).headD []))
  else
    let realIP := r.headers "X-Real-IP"
    if realIP ≠ "" then realIP
    else
      match splitHostPort r.remoteAddr with
      | some (ip, _) => ip
      | none => r.remoteAddr

/-- Go `net.IP.To4`: the 4 IPv4 bytes when the address is a 4-byte IP or a
16-byte IPv4-mapped IPv6 address (`::ffff:a.b.c.d`); `none` otherwise.  An
IP is a byte slice, modelled as a list of `Nat` (each below 256). -/
def to4 : List Nat → Option (Nat × Nat × Nat × Nat)
  | [a, b, c, d] => some (a, b, c, d)
  | [0, 0, 0, 0, 0, 0, 0, 0, 0, 0, 0xff, 0xff, a, b, c, d] => some (a, b, c, d)
  | _ => none

/-- Go `net.IP.To16`: a 4-byte IP becomes its IPv4-mapped 16-byte form, a
16-byte IP is returned unchanged, anything else gives `none`. -/
def to16 (ip : List Nat) : Option (List Nat) :=
  if ip.length = 4 then some ([0, 0, 0, 0, 0, 0, 0, 0, 0, 0, 0xff, 0xff] ++ ip)
  else if ip.length = 16 then some ip
  else none

/-- Go `net.IP.IsLoopback`: first IPv4 byte 127, or the IPv6 loopback `::1`. -/
def isLoopback (ip : List Nat) : Bool :=
  match to4 ip with
  | some (a, _, _, _) => a = 127
  | none => ip = [0, 0, 0, 0, 0, 0, 0, 0, 0, 0, 0, 0, 0, 0, 0, 1]

/-- Decimal digit character. -/
def decDigitChar (n : Nat) : Char := Char.ofNat (48 + n)

/-- Lowercase hexadecimal digit character (Go's `hexDigit` table). -/
def hexDigitChar (n : Nat) : Char :=
  if n < 10 then Char.ofNat (48 + n) else Char.ofNat (87 + n)

/-- Decimal digits of `n`, most significant first; empty for `0`. -/
def toDecCore (n : Nat) : List Char :=
  if h : n = 0 then []
  else toDecCore (n / 10) ++ [decDigitChar (n % 10)]
decreasing_by exact Nat.div_lt_self (Nat.pos_of_ne_zero h) (by decide)

/-- Go `uitoa`: decimal representation of an unsigned integer. -/
def ubtoa (n : Nat) : String :=
  if n = 0 then "0" else String.mk (toDecCore n)

/-- Hexadecimal digits of `n`, most significant first; empty for `0`. -/
def toHexCore (n : Nat) : List Char :=
  if h : n = 0 then []
  else toHexCore (n / 16) ++ [hexDigitChar (n % 16)]
decreasing_by exact Nat.div_lt_self (Nat.pos_of_ne_zero h) (by decide)

/-- Go `appendHex`: lowercase hex without leading zeros, `"0"` for zero. -/
def groupHex (n : Nat) : String :=
  if n = 0 then "0" else String.mk (toHexCore n)

/-- Go `hexString`: two lowercase hex digits per byte (used in the `?`
fallback of `net.IP.String` for IPs of irregular length). -/
def hexString (bs : List Nat) : String :=
  String.mk (bs.flatMap (fun b => [hexDigitChar (b / 16 % 16), hexDigitChar (b % 16)]))

/-- The eight 16-bit groups of a 16-byte IPv6 address (big-endian pairs). -/
def toGroups : List Nat → List Nat
  | a :: b :: rest => (a * 256 + b) :: toGroups rest
  | _ => []

/-- Leftmost longest run of zero groups of length at least two, as
`(start, end)` over group indices — the run `net.IP.String` elides as
`::` (RFC 5952; a single zero group is never compressed). -/
def findZeroRun (gs : List Nat) : Option (Nat × Nat) :=
  let cands := (List.range gs.length).map
    (fun i => (i, ((gs.drop i).takeWhile (fun g => g = 0)).length))
  let best := cands.foldl (fun (b : Nat × Nat) c => if c.2 > b.2 then c else b) (0, 0)
  if 2 ≤ best.2 then some (best.1, best.1 + best.2) else none

/-- Join strings with `:` separators. -/
def joinColon : List String → String
  | [] => ""
  | [s] => s
  | s :: rest => s ++ ":" ++ joinColon rest

/-- IPv6 textual form of a group list: groups in lowercase hex separated by
colons, with the leftmost longest zero run (length at least 2) written `::`. -/
def v6String (gs : List Nat) : String :=
  match findZeroRun gs with
  | none => joinColon (gs.map groupHex)
  | some (s, e) =>
    joinColon ((gs.take s).map groupHex) ++ "::" ++ joinColon ((gs.drop e).map groupHex)

/-- Go `net.IP.String`: `"<nil>"` for the empty IP, dotted-quad decimal for
IPv4 (including IPv4-mapped 16-byte form), RFC 5952 text for 16-byte IPv6,
and `"?"` plus raw hex for any other length. -/
def ipString (ip : List Nat) : String :=
  if ip.isEmpty then "<nil>"
  else
    match to4 ip with
    | some (a, b, c, d) => ubtoa a ++ "." ++ ubtoa b ++ "." ++ ubtoa c ++ "." ++ ubtoa d
    | none =>
      if ip.length = 16 then v6String (toGroups ip)
      else "?" ++ hexString ip

/-- A value of Go's `net.Addr` interface as returned by
`net.InterfaceAddrs`: either a `*net.IPNet` (carrying its IP) or some other
address type, for which the type assertion `addr.(*net.IPNet)` fails. -/
inductive Addr where
  | ipnet (ip : List Nat) : Addr
  | other : Addr
deriving DecidableEq

/-- The loop body of Go `getServerIP`: scan the addresses, return the
string of the first non-loopback IPv4 address immediately, remember the
string of the first non-loopback IPv6 address in the accumulator (only
while the accumulator is still empty), and at the end return the
accumulator if non-empty, else `"Unknown"`. -/
def getServerIPLoop : List Addr → String → String
  | [], ipv6Addr => if ipv6Addr ≠ "" then ipv6Addr else "Unknown"
  | a :: rest, ipv6Addr =>
    match a with
    | .ipnet ip =>
      if !isLoopback ip then
        if (to4 ip).isSome then ipString ip
        else if ipv6Addr = "" && (to16 ip).isSome then getServerIPLoop rest (ipString ip)
        else getServerIPLoop rest ipv6Addr
      else getServerIPLoop rest ipv6Addr
    | .other => getServerIPLoop rest ipv6Addr

/-- Go `getServerIP`.  The argument models `net.InterfaceAddrs()`: `none`
when enumeration returns an error (the function then degrades to
`"Unknown"` rather than propagating the error — its type has no error
component), `some addrs` otherwise. -/
def getServerIP (enum : Option (List Addr)) : String :=
  match enum with
  | none => "Unknown"
  | some addrs => getServerIPLoop addrs ""

/-- The observable outcome a handler leaves in the `http.ResponseWriter`:
final status code (200 when the handler writes without an explicit
`WriteHeader`), the Content-Type header value (empty when never set), and
the accumulated body bytes. -/
structure Response where
  status : Nat
  contentType : String
  body : String
deriving DecidableEq

/-- One `slog.Info` record: message plus key/value attributes. -/
structure LogEntry where
  msg : String
  attrs : List (String × String)
deriving DecidableEq

/-- The structured record logged for a request: method, path and raw
remote address (emitted by `logRequest` and, inline, by the handlers). -/
def requestLogEntry (r : Request) : LogEntry :=
  { msg := "Request",
    attrs := [("method", r.method), ("path", r.path), ("remote_addr", r.remoteAddr)] }

/-- A handler's pure denotation: the log records it emits and the response
it writes. -/
def Handler : Type := Request → List LogEntry × Response

/-- Go `http.Error(w, msg, code)`: plain-text content type, the given
status, and the message followed by a newline as body. -/
def httpError (msg : String) (code : Nat) : Response :=
  { status := code, contentType := "text/plain; charset=utf-8", body := msg ++ "\n" }

/-- Escaping of one character by `encoding/json` (HTML escaping on, the
`json.Encoder` default): quote, backslash and control characters escaped,
`<`, `>`, `&`, U+2028 and U+2029 written as `\uXXXX`. -/
def jsonEscapeChar (c : Char) : String :=
  if c = '"' then "\\\""
  else if c = '\\' then "\\\\"
  else if c = '\n' then "\\n"
  else if c = '\r' then "\\r"
  else if c = '\t' then "\\t"
  else if c.toNat < 0x20 then
    "\\u00" ++ String.mk [hexDigitChar (c.toNat / 16 % 16), hexDigitChar (c.toNat % 16)]
  else if c = '<' then "\\u003c"
  else if c = '>' then "\\u003e"
  else if c = '&' then "\\u0026"
  else if c.toNat = 0x2028 then "\\u2028"
  else if c.toNat = 0x2029 then "\\u2029"
  else String.mk [c]

/-- A JSON string literal for `s`, as `encoding/json` writes it. -/
def jsonQuote (s : String) : String :=
  "\"" ++ String.join (s.data.map jsonEscapeChar) ++ "\""

/-- The `IPResponse` struct: server IP and client IP, with JSON tags
`serverIP` and `clientIP`. -/
structure IPResponse where
  serverIP : String
  clientIP : String
deriving DecidableEq

/-- The `ConfigResponse` struct: the container identifier, JSON tag
`containerID`. -/
structure ConfigResponse where
  containerID : String
deriving DecidableEq

/-- What `json.NewEncoder(w).Encode` writes for an `IPResponse`: the
fields in struct order plus the encoder's trailing newline. -/
def encodeIPResponse (resp : IPResponse) : String :=
  "\x7b\"serverIP\":" ++ jsonQuote resp.serverIP ++
  ",\"clientIP\":" ++ jsonQuote resp.clientIP ++ "\x7d\n"

/-- What `json.NewEncoder(w).Encode` writes for a `ConfigResponse`. -/
def encodeConfigResponse (resp : ConfigResponse) : String :=
  "\x7b\"containerID\":" ++ jsonQuote resp.containerID ++ "\x7d\n"

/-- The process environment as `os.Getenv` sees it: empty string for an
unset variable. -/
def Env : Type := String → String

/-- The `Config` struct built at startup. -/
structure Config where
  port : String
  containerID : String
deriving DecidableEq

/-- Go default port constant. -/
def DefaultPort : String := "8080"

/-- Go `loadConfig`: read `PORT` and `CONTAINER_ID` from the environment,
substituting `"8080"` and `"N/A"` for empty values. -/
def loadConfig (env : Env) : Config :=
  let port := env "PORT"
  let port := if port = "" then DefaultPort else port
  let containerID := env "CONTAINER_ID"
  let containerID := if containerID = "" then "N/A" else containerID
  { port := port, containerID := containerID }

/-- The `IPResponse` value `handleIP` constructs on the GET path. -/
def ipResponseFor (enum : Option (List Addr)) (r : Request) : IPResponse :=
  { serverIP := getServerIP enum, clientIP := getClientIP r }

/-- Go `handleIP`: non-GET methods are rejected with
`http.Error(w, "Method not allowed", 405)` before anything is logged; on
GET it logs the request, builds the `IPResponse`, logs the served IPs,
sets the JSON content type and writes the encoded body with status 200. -/
def handleIP (enum : Option (List Addr)) (r : Request) : List LogEntry × Response :=
  if r.method ≠ "GET" then ([], httpError "Method not allowed" 405)
  else
    let response := ipResponseFor enum r
    ([requestLogEntry r,
      { msg := "Serving IPs",
        attrs := [("server_ip", response.serverIP), ("client_ip", response.clientIP)] }],
     { status := 200, contentType := "application/json",
       body := encodeIPResponse response })

/-- Go `handleConfigWithConfig config`: the closure registered for
`/api/config`.  It rejects non-GET with 405 (no log), and on GET logs the
request and writes the JSON encoding of the `ContainerID` captured in
`config` — it reads nothing from the environment at request time. -/
def handleConfigWithConfig (config : Config) (r : Request) : List LogEntry × Response :=
  if r.method ≠ "GET" then ([], httpError "Method not allowed" 405)
  else
    ([requestLogEntry r],
     { status := 200, contentType := "application/json",
       body := encodeConfigResponse { containerID := config.containerID } })

/-- Go `handleConfig`: like `handleConfigWithConfig` but reading
`CONTAINER_ID` from the environment on every GET request, with `"N/A"`
substituted for an empty value. -/
def handleConfig (env : Env) (r : Request) : List LogEntry × Response :=
  if r.method ≠ "GET" then ([], httpError "Method not allowed" 405)
  else
    let containerID := env "CONTAINER_ID"
    let containerID := if containerID = "" then "N/A" else containerID
    ([requestLogEntry r],
     { status := 200, contentType := "application/json",
       body := encodeConfigResponse { containerID := containerID } })

/-- Go `logRequest`: wrap a handler so that every invocation first emits
the request log record and then runs the wrapped handler on the very same
request, leaving its response untouched. -/
def logRequest (handler : Handler) : Handler :=
  fun r =>
    let result := handler r
    (requestLogEntry r :: result.1, result.2)

/-- The anonymous `/health` handler registered in `main`: status 200,
body `OK`, no explicit content type, no logging. -/
def healthHandler : Handler :=
  fun _ => ([], { status := 200, contentType := "", body := "OK" })

/-- The route table `main` installs on the default `ServeMux`, as a
dispatch on the request path: exact matches for `/api/ip` (bare
`handleIP`), `/api/config` (`handleConfigWithConfig config`) and
`/health`, with every other path falling through to the pattern `/` —
the static file server wrapped in `logRequest`.  The file server itself
is an external collaborator and stays abstract. -/
def mainMux (config : Config) (enum : Option (List Addr)) (staticFiles : Handler) : Handler :=
  fun r =>
    if r.path = "/api/ip" then handleIP enum r
    else if r.path = "/api/config" then handleConfigWithConfig config r
    else if r.path = "/health" then healthHandler r
    else logRequest staticFiles r

/-! Spec-side definitions.  These follow the wording of the specification
(selection by "first candidate" phrased with `filterMap`/`head?`) and are
compared against the source-embedded functions above. -/

/-- The IPs of the non-loopback interface addresses with a valid IPv4
form, in enumeration order (spec 4.1, clause (a)). -/
def v4Candidates (addrs : List Addr) : List (List Nat) :=
  addrs.filterMap fun a =>
    match a with
    | .ipnet ip => if !isLoopback ip && (to4 ip).isSome then some ip else none
    | .other => none

/-- The IPs of the non-loopback interface addresses with a valid IPv6 form
(spec 4.1, clause (b): `To16` succeeds). -/
def v6FormAddrs (addrs : List Addr) : List (List Nat) :=
  addrs.filterMap fun a =>
    match a with
    | .ipnet ip => if !isLoopback ip && (to16 ip).isSome then some ip else none
    | .other => none

/-- The IPs the loop of `getServerIP` can record in its IPv6 accumulator:
non-loopback, not IPv4, but with a 16-byte form. -/
def v6Candidates (addrs : List Addr) : List (List Nat) :=
  addrs.filterMap fun a =>
    match a with
    | .ipnet ip =>
      if !isLoopback ip && !(to4 ip).isSome && (to16 ip).isSome then some ip else none
    | .other => none

/-- Server IP selection, phrased as the specification states it: the first
non-loopback IPv4 candidate, else the first non-loopback address with a
valid IPv6 form, else the sentinel `"Unknown"` (also used when interface
enumeration fails). -/
def specServerIP (enum : Option (List Addr)) : String :=
  match enum with
  | none => "Unknown"
  | some addrs =>
    match (v4Candidates addrs).head? with
    | some ip => ipString ip
    | none =>
      match (v6FormAddrs addrs).head? with
      | some ip => ipString ip
      | none => "Unknown"

/-- A concrete request builder used by witnesses: given method, path,
remote address and the two client-IP headers (empty string meaning
absent), with all other headers absent. -/
def mkReq (method path remoteAddr xff realIP : String) : Request :=
  { method := method, path := path, remoteAddr := remoteAddr,
    headers := fun k =>
      if k = "X-Forwarded-For" then xff
      else if k = "X-Real-IP" then realIP
      else "" }

/-- A stand-in for the static file server collaborator. -/
def staticStub : Handler :=
  fun _ => ([], { status := 200, contentType := "", body := "" })

/-- The configuration produced by `loadConfig` in an empty environment. -/
def cfg0 : Config := { port := "8080", containerID := "N/A" }

/-! Helper lemmas. -/

/-- Splitting never yields the empty list of segments. -/
theorem splitComma_ne_nil (l : List Char) : splitComma l ≠ [] := by
  cases l with
  | nil => simp [splitComma]
  | cons c rest =>
    cases h : splitComma rest with
    | nil => simp [splitComma, h]
    | cons s ss =>
      simp only [splitComma, h]
      split <;> simp

/-- The first comma-separated segment is the longest comma-free prefix. -/
theorem splitComma_head (l : List Char) :
    (splitComma l).head?.getD [] = l.takeWhile (fun c => c != ',') := by
  induction l with
  | nil => simp [splitComma]
  | cons c rest ih =>
    cases h : splitComma rest with
    | nil => exact absurd h (splitComma_ne_nil rest)
    | cons s ss =>
      rw [h] at ih
      simp only [List.head?_cons, Option.getD_some] at ih
      by_cases hc : c = ','
      · subst hc
        simp [splitComma, h, List.takeWhile_cons]
      · simp [splitComma, h, hc, List.takeWhile_cons, ih, bne_iff_ne]

/-- On a non-empty forwarding header, `getClientIP` returns the trimmed
longest comma-free prefix of the header value. -/
theorem getClientIP_forwarded (r : Request)
    (hf : r.headers "X-Forwarded-For" ≠ "") :
    getClientIP r =
      trimSpace (String.mk ((r.headers "X-Forwarded-For").data.takeWhile (fun c => c != ','))) := by
  simp [getClientIP, hf, splitComma_head]

/-- With the forwarding header empty and the real-IP header non-empty,
`getClientIP` returns the real-IP header value verbatim. -/
theorem getClientIP_realIP (r : Request)
    (hf : r.headers "X-Forwarded-For" = "") (hr : r.headers "X-Real-IP" ≠ "") :
    getClientIP r = r.headers "X-Real-IP" := by
  simp [getClientIP, hf, hr]

/-- With both headers empty, `getClientIP` falls back to the host part of
the remote address, or the raw remote address if the split fails. -/
theorem getClientIP_remote (r : Request)
    (hf : r.headers "X-Forwarded-For" = "") (hr : r.headers "X-Real-IP" = "") :
    getClientIP r =
      match splitHostPort r.remoteAddr with
      | some (host, _) => host
      | none => r.remoteAddr := by
  simp [getClientIP, hf, hr]

/-- A string built from a non-empty character list is non-empty. -/
theorem mk_ne_empty {l : List Char} (h : l ≠ []) : String.mk l ≠ "" := by
  intro he
  apply h
  simpa using congrArg String.data he

/-- A string of positive length is non-empty. -/
theorem ne_empty_of_length_pos {s : String} (h : 0 < s.length) : s ≠ "" := by
  intro he
  rw [he] at h
  exact absurd h (by decide)

/-- The hex digits of a non-zero number form a non-empty list. -/
theorem toHexCore_ne_nil {n : Nat} (h : n ≠ 0) : toHexCore n ≠ [] := by
  rw [toHexCore, dif_neg h]
  simp

/-- A hex group never prints as the empty string. -/
theorem groupHex_ne_empty (n : Nat) : groupHex n ≠ "" := by
  unfold groupHex
  by_cases h : n = 0
  · simp [h]
  · simp only [h, if_false]
    exact mk_ne_empty (toHexCore_ne_nil h)

/-- A non-empty string has positive length. -/
theorem length_pos_of_ne_empty {s : String} (h : s ≠ "") : 0 < s.length := by
  rcases Nat.eq_zero_or_pos s.length with h0 | h0
  · exfalso
    apply h
    cases s with
    | mk data =>
      have hd : data = [] := by
        simpa [String.length] using h0
      subst hd
      decide
  · exact h0

/-- Joining a non-empty list of non-empty strings with colons is non-empty. -/
theorem joinColon_ne_empty (l : List String) (hmem : ∀ s ∈ l, s ≠ "")
    (hne : l ≠ []) : joinColon l ≠ "" := by
  match l with
  | [] => exact absurd rfl hne
  | [s] =>
    simpa [joinColon] using hmem s (by simp)
  | s :: t :: rest =>
    simp only [joinColon]
    apply ne_empty_of_length_pos
    have hs : 0 < s.length := length_pos_of_ne_empty (hmem s (by simp))
    simp only [String.length_append]
    have h1 : (":" : String).length = 1 := rfl
    omega

/-- A 16-byte address yields a non-empty group list. -/
theorem toGroups_ne_nil {ip : List Nat} (h : ip.length = 16) : toGroups ip ≠ [] := by
  cases ip with
  | nil => simp at h
  | cons a t =>
    cases t with
    | nil => simp at h
    | cons b r => simp [toGroups]

/-- The IPv6 textual form of a non-empty group list is non-empty. -/
theorem v6String_ne_empty (gs : List Nat) (hne : gs ≠ []) : v6String gs ≠ "" := by
  unfold v6String
  cases hrun : findZeroRun gs with
  | none =>
    apply joinColon_ne_empty
    · intro s hs
      rcases List.mem_map.mp hs with ⟨g, _, rfl⟩
      exact groupHex_ne_empty g
    · simpa using hne
  | some se =>
    obtain ⟨s, e⟩ := se
    apply ne_empty_of_length_pos
    show 0 < (joinColon ((gs.take s).map groupHex) ++ "::" ++
      joinColon ((gs.drop e).map groupHex)).length
    simp only [String.length_append]
    have h2 : ("::" : String).length = 2 := rfl
    omega

/-- Go `net.IP.String` never returns the empty string. -/
theorem ipString_ne_empty (ip : List Nat) : ipString ip ≠ "" := by
  unfold ipString
  by_cases hemp : ip.isEmpty
  · rw [if_pos hemp]
    decide
  · rw [if_neg hemp]
    cases h4 : to4 ip with
    | some q =>
      obtain ⟨a, b, c, d⟩ := q
      apply ne_empty_of_length_pos
      show 0 < (ubtoa a ++ "." ++ ubtoa b ++ "." ++ ubtoa c ++ "." ++ ubtoa d).length
      simp only [String.length_append]
      have h1 : ("." : String).length = 1 := rfl
      omega
    | none =>
      show (if ip.length = 16 then v6String (toGroups ip) else "?" ++ hexString ip) ≠ ""
      by_cases h16 : ip.length = 16
      · rw [if_pos h16]
        exact v6String_ne_empty _ (toGroups_ne_nil h16)
      · rw [if_neg h16]
        apply ne_empty_of_length_pos
        show 0 < ("?" ++ hexString ip).length
        simp only [String.length_append]
        have h1 : ("?" : String).length = 1 := rfl
        omega

/-- The scanning loop of `getServerIP` never returns the empty string. -/
theorem getServerIPLoop_ne_empty (addrs : List Addr) (acc : String) :
    getServerIPLoop addrs acc ≠ "" := by
  induction addrs generalizing acc with
  | nil =>
    simp only [getServerIPLoop]
    split
    · assumption
    · decide
  | cons a rest ih =>
    cases a with
    | ipnet ip =>
      simp only [getServerIPLoop]
      split
      · split
        · exact ipString_ne_empty ip
        · split
          · exact ih _
          · exact ih _
      · exact ih _
    | other => exact ih _

/-- Go `getServerIP` never returns the empty string: it is `"Unknown"` or
the textual form of a selected interface address. -/
theorem getServerIP_ne_empty (enum : Option (List Addr)) : getServerIP enum ≠ "" := by
  cases enum with
  | none => decide
  | some addrs => exact getServerIPLoop_ne_empty addrs ""

/-- Characterization of the scanning loop: the first IPv4 candidate wins;
otherwise a non-empty accumulator is returned; otherwise the first IPv6
candidate; otherwise the sentinel. -/
theorem getServerIPLoop_spec (addrs : List Addr) (acc : String) :
    getServerIPLoop addrs acc =
      match (v4Candidates addrs).head? with
      | some ip => ipString ip
      | none =>
        if acc ≠ "" then acc
        else
          match (v6Candidates addrs).head? with
          | some ip => ipString ip
          | none => "Unknown" := by
  induction addrs generalizing acc with
  | nil =>
    simp [getServerIPLoop, v4Candidates, v6Candidates]
  | cons a rest ih =>
    cases a with
    | other =>
      show getServerIPLoop rest acc = _
      rw [ih]
      simp [v4Candidates, v6Candidates, List.filterMap_cons]
    | ipnet ip =>
      by_cases hl : isLoopback ip
      · show (if !isLoopback ip then _ else getServerIPLoop rest acc) = _
        rw [if_neg (by simp [hl])]
        rw [ih]
        simp [v4Candidates, v6Candidates, List.filterMap_cons, hl]
      · by_cases h4 : (to4 ip).isSome
        · show (if !isLoopback ip then
              if (to4 ip).isSome then ipString ip
              else if acc = "" && (to16 ip).isSome then getServerIPLoop rest (ipString ip)
              else getServerIPLoop rest acc
            else getServerIPLoop rest acc) = _
          rw [if_pos (by simp [hl]), if_pos h4]
          simp [v4Candidates, List.filterMap_cons, hl, h4]
        · have h4n : to4 ip = none := by
            cases hq : to4 ip with
            | none => rfl
            | some q => exact absurd (by simp [hq]) h4
          have hv4 : v4Candidates (Addr.ipnet ip :: rest) = v4Candidates rest := by
            simp [v4Candidates, List.filterMap_cons, hl, h4]
          by_cases h16 : (to16 ip).isSome
          · have hv6 : v6Candidates (Addr.ipnet ip :: rest) = ip :: v6Candidates rest := by
              simp [v6Candidates, List.filterMap_cons, hl, h4n, h16]
            by_cases hacc : acc = ""
            · subst hacc
              show (if !isLoopback ip then
                  if (to4 ip).isSome then ipString ip
                  else if "" = "" && (to16 ip).isSome then getServerIPLoop rest (ipString ip)
                  else getServerIPLoop rest ""
                else getServerIPLoop rest "") = _
              rw [if_pos (by simp [hl]), if_neg (by simp [h4]),
                if_pos (by simp [h16])]
              rw [ih]
              rw [hv4, hv6]
              cases (v4Candidates rest).head? <;> simp [ipString_ne_empty ip]
            · show (if !isLoopback ip then
                  if (to4 ip).isSome then ipString ip
                  else if acc = "" && (to16 ip).isSome then getServerIPLoop rest (ipString ip)
                  else getServerIPLoop rest acc
                else getServerIPLoop rest acc) = _
              rw [if_pos (by simp [hl]), if_neg (by simp [h4]),
                if_neg (by simp [hacc])]
              rw [ih]
              rw [hv4]
              cases (v4Candidates rest).head? <;> simp [hacc]
          · have hv6 : v6Candidates (Addr.ipnet ip :: rest) = v6Candidates rest := by
              simp [v6Candidates, List.filterMap_cons, hl, h16]
            show (if !isLoopback ip then
                if (to4 ip).isSome then ipString ip
                else if acc = "" && (to16 ip).isSome then getServerIPLoop rest (ipString ip)
                else getServerIPLoop rest acc
              else getServerIPLoop rest acc) = _
            rw [if_pos (by simp [hl]), if_neg (by simp [h4]),
              if_neg (by simp [h16])]
            rw [ih, hv4, hv6]

/-- When no IPv4 candidate exists, the addresses with a valid IPv6 form are
exactly the loop's IPv6 candidates (nothing has a 4-byte form left). -/
theorem v6FormAddrs_eq_of_no_v4 (addrs : List Addr)
    (h : v4Candidates addrs = []) : v6FormAddrs addrs = v6Candidates addrs := by
  induction addrs with
  | nil => rfl
  | cons a rest ih =>
    cases a with
    | other =>
      simp only [v4Candidates, List.filterMap_cons] at h
      simp only [v6FormAddrs, v6Candidates, List.filterMap_cons]
      exact ih h
    | ipnet ip =>
      by_cases hl : isLoopback ip
      · simp only [v4Candidates, List.filterMap_cons, hl, Bool.not_true,
          Bool.false_and, if_false] at h
        simp only [v6FormAddrs, v6Candidates, List.filterMap_cons, hl,
          Bool.not_true, Bool.false_and, if_false]
        exact ih h
      · by_cases h4 : (to4 ip).isSome
        · exfalso
          simp [v4Candidates, List.filterMap_cons, hl, h4] at h
        · have h3 : v4Candidates rest = [] := by
            have h2 := h
            simp only [v4Candidates, List.filterMap_cons] at h2
            rw [if_neg (by simp [h4])] at h2
            exact h2
          have h4n : to4 ip = none := by
            cases hq : to4 ip with
            | none => rfl
            | some q => exact absurd (by simp [hq]) h4
          by_cases h16 : (to16 ip).isSome
          · have ha : v6FormAddrs (Addr.ipnet ip :: rest) = ip :: v6FormAddrs rest := by
              simp [v6FormAddrs, List.filterMap_cons, hl, h16]
            have hb : v6Candidates (Addr.ipnet ip :: rest) = ip :: v6Candidates rest := by
              simp [v6Candidates, List.filterMap_cons, hl, h4n, h16]
            rw [ha, hb, ih h3]
          · have ha : v6FormAddrs (Addr.ipnet ip :: rest) = v6FormAddrs rest := by
              simp [v6FormAddrs, List.filterMap_cons, hl, h16]
            have hb : v6Candidates (Addr.ipnet ip :: rest) = v6Candidates rest := by
              simp [v6Candidates, List.filterMap_cons, hl, h16]
            rw [ha, hb, ih h3]

/-! Claim theorems. -/

/-- C2: `getServerIP` returns the string form of the first enumerated
non-loopback interface address with a valid IPv4 form; failing that, the
string form of the first non-loopback address with a valid IPv6 form;
and the literal `"Unknown"` when enumeration fails or no candidate
qualifies.  Its `String` return type carries no error, so no error ever
propagates to the caller. -/
theorem getServerIP_selection_policy (enum : Option (List Addr)) :
    getServerIP enum = specServerIP enum := by
  cases enum with
  | none => rfl
  | some addrs =>
    show getServerIPLoop addrs "" = _
    rw [getServerIPLoop_spec]
    show _ = match (v4Candidates addrs).head? with
      | some ip => ipString ip
      | none =>
        match (v6FormAddrs addrs).head? with
        | some ip => ipString ip
        | none => "Unknown"
    cases hh : (v4Candidates addrs).head? with
    | some ip => rfl
    | none =>
      have hnil : v4Candidates addrs = [] := by
        cases hq : v4Candidates addrs with
        | nil => rfl
        | cons x xs => rw [hq] at hh; simp at hh
      rw [v6FormAddrs_eq_of_no_v4 addrs hnil]
      simp

/-- C3: whenever the X-Forwarded-For header is present with a non-empty
value, `getClientIP` returns the first comma-separated element (the longest
comma-free prefix) with surrounding whitespace trimmed, however many
entries follow; the result is a pure string operation, passed through with
no validation as an IP literal. -/
theorem getClientIP_forwarded_first (r : Request)
    (hf : r.headers "X-Forwarded-For" ≠ "") :
    getClientIP r =
      trimSpace (String.mk ((r.headers "X-Forwarded-For").data.takeWhile (fun c => c != ','))) :=
  getClientIP_forwarded r hf

/-- Witness for C3 at a three-entry forwarding chain. -/
theorem getClientIP_forwarded_first_witness :
    (mkReq "GET" "/api/ip" "10.0.0.1:12345" "203.0.113.1, 198.51.100.1, 10.0.0.1" "").headers
        "X-Forwarded-For" ≠ "" ∧
    getClientIP (mkReq "GET" "/api/ip" "10.0.0.1:12345" "203.0.113.1, 198.51.100.1, 10.0.0.1" "") =
      trimSpace (String.mk
        (((mkReq "GET" "/api/ip" "10.0.0.1:12345" "203.0.113.1, 198.51.100.1, 10.0.0.1" "").headers
            "X-Forwarded-For").data.takeWhile (fun c => c != ','))) ∧
    getClientIP (mkReq "GET" "/api/ip" "10.0.0.1:12345" "203.0.113.1, 198.51.100.1, 10.0.0.1" "") =
      "203.0.113.1" :=
  ⟨by decide,
   getClientIP_forwarded_first
     (mkReq "GET" "/api/ip" "10.0.0.1:12345" "203.0.113.1, 198.51.100.1, 10.0.0.1" "") (by decide),
   by decide⟩

/-- C4: fixed first-match-wins precedence in `getClientIP` — a non-empty
forwarding header always wins (its trimmed first element is returned no
matter what the real-IP header holds), and with the forwarding header
absent or empty a non-empty real-IP header value is returned verbatim. -/
theorem getClientIP_precedence (r : Request) :
    (r.headers "X-Forwarded-For" ≠ "" →
      getClientIP r =
        trimSpace (String.mk ((r.headers "X-Forwarded-For").data.takeWhile (fun c => c != ',')))) ∧
    (r.headers "X-Forwarded-For" = "" → r.headers "X-Real-IP" ≠ "" →
      getClientIP r = r.headers "X-Real-IP") :=
  ⟨getClientIP_forwarded r, getClientIP_realIP r⟩

/-- Witness for C4: with both headers set the forwarding header wins; with
the forwarding header empty the real-IP header is returned verbatim. -/
theorem getClientIP_precedence_witness :
    ((mkReq "GET" "/api/ip" "10.0.0.1:12345" "203.0.113.1" "198.51.100.1").headers
        "X-Forwarded-For" ≠ "" ∧
      getClientIP (mkReq "GET" "/api/ip" "10.0.0.1:12345" "203.0.113.1" "198.51.100.1") =
        "203.0.113.1") ∧
    ((mkReq "GET" "/api/ip" "10.0.0.1:12345" "" "198.51.100.1").headers "X-Forwarded-For" = "" ∧
      (mkReq "GET" "/api/ip" "10.0.0.1:12345" "" "198.51.100.1").headers "X-Real-IP" ≠ "" ∧
      getClientIP (mkReq "GET" "/api/ip" "10.0.0.1:12345" "" "198.51.100.1") = "198.51.100.1") :=
  ⟨⟨by decide,
    ((getClientIP_precedence
        (mkReq "GET" "/api/ip" "10.0.0.1:12345" "203.0.113.1" "198.51.100.1")).1
      (by decide)).trans (by decide)⟩,
   ⟨by decide, by decide,
    ((getClientIP_precedence (mkReq "GET" "/api/ip" "10.0.0.1:12345" "" "198.51.100.1")).2
      (by decide) (by decide)).trans (by decide)⟩⟩

/-- C5: with both headers absent or empty, `getClientIP` returns the host
part of `SplitHostPort` on the remote address, and the raw remote address
unchanged when the split fails; a bracketed IPv6 remote address with a
port yields the bracket-free literal, a port-less address makes the split
fail, and so does a malformed one with a stray bracket after the port
separator. -/
theorem getClientIP_remote_fallback (r : Request)
    (hf : r.headers "X-Forwarded-For" = "") (hr : r.headers "X-Real-IP" = "") :
    (getClientIP r =
      match splitHostPort r.remoteAddr with
      | some (host, _) => host
      | none => r.remoteAddr) ∧
    splitHostPort "[2001:db8::1]:12345" = some ("2001:db8::1", "12345") ∧
    splitHostPort "192.168.1.1" = none ∧
    splitHostPort "1.2.3.4:5[" = none ∧
    splitHostPort "[::1]:5[" = none :=
  ⟨getClientIP_remote r hf hr, by decide, by decide, by decide, by decide⟩

/-- Witness for C5 at a bracketed IPv6 remote address, a port-less one,
and a malformed one with a stray bracket after the port. -/
theorem getClientIP_remote_fallback_witness :
    (mkReq "GET" "/" "[2001:db8::1]:12345" "" "").headers "X-Forwarded-For" = "" ∧
    (mkReq "GET" "/" "[2001:db8::1]:12345" "" "").headers "X-Real-IP" = "" ∧
    getClientIP (mkReq "GET" "/" "[2001:db8::1]:12345" "" "") = "2001:db8::1" ∧
    getClientIP (mkReq "GET" "/" "192.168.1.1" "" "") = "192.168.1.1" ∧
    getClientIP (mkReq "GET" "/" "1.2.3.4:5[" "" "") = "1.2.3.4:5[" :=
  ⟨by decide, by decide,
   ((getClientIP_remote_fallback (mkReq "GET" "/" "[2001:db8::1]:12345" "" "")
      (by decide) (by decide)).1).trans (by decide),
   ((getClientIP_remote_fallback (mkReq "GET" "/" "192.168.1.1" "" "")
      (by decide) (by decide)).1).trans (by decide),
   ((getClientIP_remote_fallback (mkReq "GET" "/" "1.2.3.4:5[" "" "")
      (by decide) (by decide)).1).trans (by decide)⟩

/-- C10: when the X-Forwarded-For header is present and non-empty but its
first comma-separated segment trims to nothing, `getClientIP` returns the
empty string — the forwarding branch is taken, so neither the real-IP
header nor the remote address is consulted (the theorem holds for every
value of both). -/
theorem getClientIP_empty_on_blank_first (r : Request)
    (hf : r.headers "X-Forwarded-For" ≠ "")
    (hws : trimSpace (String.mk ((r.headers "X-Forwarded-For").data.takeWhile (fun c => c != ','))) = "") :
    getClientIP r = "" := by
  rw [getClientIP_forwarded r hf, hws]

/-- Witness for C10 at the header values `" "` and `", 10.0.0.1"`, with a
real-IP header and a remote address available but ignored. -/
theorem getClientIP_empty_on_blank_first_witness :
    (mkReq "GET" "/api/ip" "10.0.0.1:12345" " " "9.9.9.9").headers "X-Forwarded-For" ≠ "" ∧
    trimSpace (String.mk
      (((mkReq "GET" "/api/ip" "10.0.0.1:12345" " " "9.9.9.9").headers
          "X-Forwarded-For").data.takeWhile (fun c => c != ','))) = "" ∧
    getClientIP (mkReq "GET" "/api/ip" "10.0.0.1:12345" " " "9.9.9.9") = "" ∧
    getClientIP (mkReq "GET" "/api/ip" "10.0.0.1:12345" ", 10.0.0.1" "9.9.9.9") = "" :=
  ⟨by decide, by decide,
   getClientIP_empty_on_blank_first (mkReq "GET" "/api/ip" "10.0.0.1:12345" " " "9.9.9.9")
     (by decide) (by decide),
   getClientIP_empty_on_blank_first (mkReq "GET" "/api/ip" "10.0.0.1:12345" ", 10.0.0.1" "9.9.9.9")
     (by decide) (by decide)⟩

/-- C6: `handleConfig` rejects every non-GET request with status 405; on
GET it responds 200 with the JSON encoding of a `ConfigResponse` whose
`containerID` is the `CONTAINER_ID` environment value verbatim when that
value is non-empty, and the sentinel `"N/A"` when it is unset or empty. -/
theorem handleConfig_contract (env : Env) (r : Request) :
    (r.method ≠ "GET" → handleConfig env r = ([], httpError "Method not allowed" 405)) ∧
    (r.method = "GET" →
      handleConfig env r =
        ([requestLogEntry r],
         { status := 200, contentType := "application/json",
           body := encodeConfigResponse
             { containerID :=
                 if env "CONTAINER_ID" = "" then "N/A" else env "CONTAINER_ID" } })) := by
  constructor
  · intro h
    simp [handleConfig, h]
  · intro h
    simp [handleConfig, h]

/-- Witness for C6: a POST is rejected with 405; a GET with
`CONTAINER_ID=test-container-123` returns that value verbatim, and a GET
in an empty environment returns `"N/A"`. -/
theorem handleConfig_contract_witness :
    (mkReq "POST" "/api/config" "1.2.3.4:5" "" "").method ≠ "GET" ∧
    handleConfig (fun k => if k = "CONTAINER_ID" then "test-container-123" else "")
        (mkReq "POST" "/api/config" "1.2.3.4:5" "" "") =
      ([], httpError "Method not allowed" 405) ∧
    (mkReq "GET" "/api/config" "1.2.3.4:5" "" "").method = "GET" ∧
    (handleConfig (fun k => if k = "CONTAINER_ID" then "test-container-123" else "")
        (mkReq "GET" "/api/config" "1.2.3.4:5" "" "")).2.body =
      encodeConfigResponse { containerID := "test-container-123" } ∧
    (handleConfig (fun _ => "") (mkReq "GET" "/api/config" "1.2.3.4:5" "" "")).2.body =
      encodeConfigResponse { containerID := "N/A" } :=
  ⟨by decide,
   (handleConfig_contract (fun k => if k = "CONTAINER_ID" then "test-container-123" else "")
       (mkReq "POST" "/api/config" "1.2.3.4:5" "" "")).1 (by decide),
   by decide,
   by
     rw [(handleConfig_contract (fun k => if k = "CONTAINER_ID" then "test-container-123" else "")
       (mkReq "GET" "/api/config" "1.2.3.4:5" "" "")).2 (by decide)]
     decide,
   by
     rw [(handleConfig_contract (fun _ => "")
       (mkReq "GET" "/api/config" "1.2.3.4:5" "" "")).2 (by decide)]
     decide⟩

/-- C7: the handler returned by `logRequest` prepends one log record and
otherwise behaves exactly as the wrapped handler on the original,
unmodified request: its response (status, content type and body alike) is
the wrapped handler's response. -/
theorem logRequest_passthrough (handler : Handler) (r : Request) :
    logRequest handler r = (requestLogEntry r :: (handler r).1, (handler r).2) := rfl

/-- C9: the handler registered for `/api/config` —
`handleConfigWithConfig` applied to the `Config` captured by `loadConfig`
at startup — serves the same body on every GET request for the life of the
process.  Its denotation takes no request-time environment at all, so two
GET responses are always identical and equal the JSON encoding of the
startup `containerID`. -/
theorem configHandler_startup_constant (env : Env) (r1 r2 : Request)
    (h1 : r1.method = "GET") (h2 : r2.method = "GET") :
    (handleConfigWithConfig (loadConfig env) r1).2.body =
      (handleConfigWithConfig (loadConfig env) r2).2.body ∧
    (handleConfigWithConfig (loadConfig env) r1).2.body =
      encodeConfigResponse { containerID := (loadConfig env).containerID } := by
  constructor
  · simp [handleConfigWithConfig, h1, h2]
  · simp [handleConfigWithConfig, h1]

/-- Witness for C9: two different GET requests against the startup
environment `CONTAINER_ID=mycontainer-001` receive identical bodies. -/
theorem configHandler_startup_constant_witness :
    (mkReq "GET" "/api/config" "1.1.1.1:1" "" "").method = "GET" ∧
    (mkReq "GET" "/api/config" "2.2.2.2:2" "x" "y").method = "GET" ∧
    (handleConfigWithConfig
        (loadConfig (fun k => if k = "CONTAINER_ID" then "mycontainer-001" else ""))
        (mkReq "GET" "/api/config" "1.1.1.1:1" "" "")).2.body =
      (handleConfigWithConfig
        (loadConfig (fun k => if k = "CONTAINER_ID" then "mycontainer-001" else ""))
        (mkReq "GET" "/api/config" "2.2.2.2:2" "x" "y")).2.body ∧
    (handleConfigWithConfig
        (loadConfig (fun k => if k = "CONTAINER_ID" then "mycontainer-001" else ""))
        (mkReq "GET" "/api/config" "1.1.1.1:1" "" "")).2.body =
      encodeConfigResponse
        { containerID :=
            (loadConfig (fun k => if k = "CONTAINER_ID" then "mycontainer-001" else "")).containerID } :=
  ⟨by decide, by decide,
   (configHandler_startup_constant
       (fun k => if k = "CONTAINER_ID" then "mycontainer-001" else "")
       (mkReq "GET" "/api/config" "1.1.1.1:1" "" "")
       (mkReq "GET" "/api/config" "2.2.2.2:2" "x" "y") (by decide) (by decide)).1,
   (configHandler_startup_constant
       (fun k => if k = "CONTAINER_ID" then "mycontainer-001" else "")
       (mkReq "GET" "/api/config" "1.1.1.1:1" "" "")
       (mkReq "GET" "/api/config" "2.2.2.2:2" "x" "y") (by decide) (by decide)).2⟩

/-- C1 counterexample: a GET request whose X-Forwarded-For header is the
single blank `" "` is answered 200 with the JSON encoding of an
`IPResponse` whose `clientIP` field is the empty string, refuting the
claim that both fields are non-empty for every GET request. -/
theorem handleIP_empty_clientIP_cex :
    (handleIP (some []) (mkReq "GET" "/api/ip" "192.168.1.1:12345" " " "")).2.status = 200 ∧
    (handleIP (some []) (mkReq "GET" "/api/ip" "192.168.1.1:12345" " " "")).2.body =
      encodeIPResponse (ipResponseFor (some []) (mkReq "GET" "/api/ip" "192.168.1.1:12345" " " "")) ∧
    (ipResponseFor (some []) (mkReq "GET" "/api/ip" "192.168.1.1:12345" " " "")).clientIP = "" :=
  ⟨rfl, rfl, by decide⟩

/-- C1 (amended): `handleIP` answers any non-GET request with status 405
and the plain-text error body (no JSON is written); a GET request is
answered 200 with content type `application/json` and the JSON encoding of
the `IPResponse` built from `getServerIP` and `getClientIP`, whose
`serverIP` field is always non-empty — the `clientIP` field equals
`getClientIP` of the request and can be empty (for instance when the
forwarding header's first element is all whitespace). -/
theorem handleIP_contract_amended (enum : Option (List Addr)) (r : Request) :
    (r.method ≠ "GET" → handleIP enum r = ([], httpError "Method not allowed" 405)) ∧
    (r.method = "GET" →
      (handleIP enum r).2.status = 200 ∧
      (handleIP enum r).2.contentType = "application/json" ∧
      (handleIP enum r).2.body = encodeIPResponse (ipResponseFor enum r) ∧
      (ipResponseFor enum r).serverIP ≠ "") := by
  constructor
  · intro h
    simp [handleIP, h]
  · intro h
    refine ⟨by simp [handleIP, h], by simp [handleIP, h], by simp [handleIP, h], ?_⟩
    show getServerIP enum ≠ ""
    exact getServerIP_ne_empty enum

/-- Witness for C1 (amended): a POST is rejected with 405, a GET on an
empty interface list is served 200 with a non-empty `serverIP`. -/
theorem handleIP_contract_amended_witness :
    (mkReq "POST" "/api/ip" "192.168.1.1:12345" "" "").method ≠ "GET" ∧
    handleIP (some []) (mkReq "POST" "/api/ip" "192.168.1.1:12345" "" "") =
      ([], httpError "Method not allowed" 405) ∧
    (mkReq "GET" "/api/ip" "192.168.1.1:12345" "" "").method = "GET" ∧
    (handleIP (some []) (mkReq "GET" "/api/ip" "192.168.1.1:12345" "" "")).2.status = 200 ∧
    (ipResponseFor (some []) (mkReq "GET" "/api/ip" "192.168.1.1:12345" "" "")).serverIP ≠ "" :=
  ⟨by decide,
   (handleIP_contract_amended (some []) (mkReq "POST" "/api/ip" "192.168.1.1:12345" "" "")).1
     (by decide),
   by decide,
   ((handleIP_contract_amended (some []) (mkReq "GET" "/api/ip" "192.168.1.1:12345" "" "")).2
     (by decide)).1,
   ((handleIP_contract_amended (some []) (mkReq "GET" "/api/ip" "192.168.1.1:12345" "" "")).2
     (by decide)).2.2.2⟩

/-- C8 counterexample: the dispatch `main` installs does not route
`/api/ip` through the `logRequest` wrapper — no wrapped handler can match
it, because `logRequest` always emits a log record while a POST to
`/api/ip` produces none (the 405 guard returns before any logging). -/
theorem mux_through_logRequest_cex :
    ¬ ∃ h : Handler, ∀ r : Request,
      mainMux cfg0 none staticStub r = logRequest h r := by
  rintro ⟨h, hall⟩
  have hx := hall (mkReq "POST" "/api/ip" "10.0.0.1:1" "" "")
  have h1 : (mainMux cfg0 none staticStub (mkReq "POST" "/api/ip" "10.0.0.1:1" "" "")).1 = [] := rfl
  rw [hx] at h1
  simp [logRequest] at h1

/-- C8 (amended): requests whose path is none of `/api/ip`, `/api/config`,
`/health` are handled by the static file server through the `logRequest`
wrapper; the handlers for `/api/ip` and `/api/config` are registered
directly — not wrapped — and instead log the request themselves first on
the GET path (the response is computed after that log record), while their
non-GET rejection logs nothing. -/
theorem mux_logging_amended (config : Config) (enum : Option (List Addr))
    (staticFiles : Handler) (r : Request) :
    (r.path ≠ "/api/ip" → r.path ≠ "/api/config" → r.path ≠ "/health" →
      mainMux config enum staticFiles r = logRequest staticFiles r) ∧
    (r.path = "/api/ip" → mainMux config enum staticFiles r = handleIP enum r) ∧
    (r.path = "/api/config" →
      mainMux config enum staticFiles r = handleConfigWithConfig config r) ∧
    (r.path = "/health" → mainMux config enum staticFiles r = healthHandler r) ∧
    (r.path = "/api/ip" → r.method = "GET" →
      (mainMux config enum staticFiles r).1.head? = some (requestLogEntry r)) ∧
    (r.path = "/api/config" → r.method = "GET" →
      (mainMux config enum staticFiles r).1.head? = some (requestLogEntry r)) ∧
    (r.path = "/api/ip" → r.method ≠ "GET" →
      (mainMux config enum staticFiles r).1 = []) := by
  refine ⟨?_, ?_, ?_, ?_, ?_, ?_, ?_⟩
  · intro h1 h2 h3
    simp [mainMux, h1, h2, h3]
  · intro h1
    simp [mainMux, h1]
  · intro h1
    by_cases hip : r.path = "/api/ip"
    · rw [h1] at hip; simp at hip
    · simp [mainMux, h1, hip]
  · intro h1
    by_cases hip : r.path = "/api/ip"
    · rw [h1] at hip; simp at hip
    · by_cases hcf : r.path = "/api/config"
      · rw [h1] at hcf; simp at hcf
      · simp [mainMux, h1, hip, hcf]
  · intro h1 h2
    simp [mainMux, h1, h2, handleIP]
  · intro h1 h2
    by_cases hip : r.path = "/api/ip"
    · rw [h1] at hip; simp at hip
    · simp [mainMux, h1, hip, h2, handleConfigWithConfig]
  · intro h1 h2
    simp [mainMux, h1, h2, handleIP]

/-- Witness for C8 (amended): a GET for `/index.html` goes through the
wrapped static server; a GET for `/api/ip` is served by the bare handler,
which logs the request record first; a POST for `/api/ip` logs nothing. -/
theorem mux_logging_amended_witness :
    ((mkReq "GET" "/index.html" "9.9.9.9:9" "" "").path ≠ "/api/ip" ∧
      (mkReq "GET" "/index.html" "9.9.9.9:9" "" "").path ≠ "/api/config" ∧
      (mkReq "GET" "/index.html" "9.9.9.9:9" "" "").path ≠ "/health" ∧
      mainMux cfg0 none staticStub (mkReq "GET" "/index.html" "9.9.9.9:9" "" "") =
        logRequest staticStub (mkReq "GET" "/index.html" "9.9.9.9:9" "" "")) ∧
    ((mainMux cfg0 none staticStub (mkReq "GET" "/api/ip" "9.9.9.9:9" "" "")).1.head? =
      some (requestLogEntry (mkReq "GET" "/api/ip" "9.9.9.9:9" "" ""))) ∧
    ((mainMux cfg0 none staticStub (mkReq "POST" "/api/ip" "9.9.9.9:9" "" "")).1 = []) :=
  ⟨⟨by decide, by decide, by decide,
    (mux_logging_amended cfg0 none staticStub (mkReq "GET" "/index.html" "9.9.9.9:9" "" "")).1
      (by decide) (by decide) (by decide)⟩,
   (mux_logging_amended cfg0 none staticStub (mkReq "GET" "/api/ip" "9.9.9.9:9" "" "")).2.2.2.2.1
     (by decide) (by decide),
   (mux_logging_amended cfg0 none staticStub
       (mkReq "POST" "/api/ip" "9.9.9.9:9" "" "")).2.2.2.2.2.2
     (by decide) (by decide)⟩

end MyContainer
